import Mathlib

/-
Shallow embedding of `src/infra/terraform/lambda/lambda_function.py`, the single
source file of the `idc-ocr` repository: an S3-triggered document-ingestion
Lambda.  Python strings are Lean `String`s (Python `len`/slicing count code
points, as does `String.length`/`String.take` on `String.data`), byte strings
are `List Nat` (each element a byte value), Python exceptions are modelled with
`Except String` carrying `str(e)`, and every external collaborator
(S3, Bedrock, DynamoDB, plus the CPython library routines `unquote_plus`,
`mimetypes.guess_type` and the UTF-8 codec, whose code is not part of this
repository) is a field of an explicit environment record `Env`, so that each
repository function becomes a pure Lean function of the environment.
Calls to the Bedrock inference endpoint are additionally returned as an explicit
trace (`List InvokeRequest`), so that "performs no endpoint call" and "the
request sent contains ..." are statable.
-/

namespace IdcOcr

/-! ## Python string primitives used by the source -/

/-- Last element of a list with a default: the model of Python `xs[-1]`
indexing, which the source applies only to the (never empty) result of
`str.split`. -/
def lastD {α : Type} : List α → α → α
  | [], d => d
  | [a], _ => a
  | _ :: b :: l, d => lastD (b :: l) d

/-- The whitespace characters stripped by Python `str.strip()` (the Unicode
whitespace set used by CPython). -/
def pyWhitespace : List Char :=
  [Char.ofNat 9, Char.ofNat 10, Char.ofNat 11, Char.ofNat 12, Char.ofNat 13,
   Char.ofNat 28, Char.ofNat 29, Char.ofNat 30, Char.ofNat 31, Char.ofNat 32,
   Char.ofNat 133, Char.ofNat 160, Char.ofNat 5760,
   Char.ofNat 8192, Char.ofNat 8193, Char.ofNat 8194, Char.ofNat 8195,
   Char.ofNat 8196, Char.ofNat 8197, Char.ofNat 8198, Char.ofNat 8199,
   Char.ofNat 8200, Char.ofNat 8201, Char.ofNat 8202,
   Char.ofNat 8232, Char.ofNat 8233, Char.ofNat 8239, Char.ofNat 8287,
   Char.ofNat 12288]

def pyIsSpace (c : Char) : Bool := pyWhitespace.contains c

/-- Python `s.strip()`: remove leading and trailing whitespace. -/
def pyStrip (s : String) : String :=
  String.mk (((s.data.dropWhile pyIsSpace).reverse.dropWhile pyIsSpace).reverse)

/-- Python `s.strip(c)` for a single character `c` (used as `strip('"')` on the
ETag): remove all leading and trailing occurrences of `c`. -/
def pyStripChar (c : Char) (s : String) : String :=
  String.mk (((s.data.dropWhile (fun x => x = c)).reverse.dropWhile
    (fun x => x = c)).reverse)

/-- ASCII fragment of Python `str.lower()`, applied character-wise.  The keys
the source lowers are object keys; the model covers the ASCII range. -/
def asciiLowerChar (c : Char) : Char :=
  if 65 ≤ c.toNat ∧ c.toNat ≤ 90 then Char.ofNat (c.toNat + 32) else c

/-- Python `s.lower()` (ASCII fragment). -/
def pyLower (s : String) : String := String.mk (s.data.map asciiLowerChar)

/-- Helper for Python `str.split(sep)` with a one-character separator:
processes the input accumulating the current field (reversed) in `acc`. -/
def pySplitAux (c : Char) : List Char → List Char → List (List Char)
  | [], acc => [acc.reverse]
  | x :: xs, acc =>
    if x = c then acc.reverse :: pySplitAux c xs []
    else pySplitAux c xs (x :: acc)

/-- Python `s.split(c)` for a single-character separator `c`: always returns a
nonempty list of fields; a separator-free string yields the one-element list
containing the whole string. -/
def pySplit (c : Char) (s : String) : List String :=
  (pySplitAux c s.data []).map String.mk

/-- The file-extension computation of the source
(`lambda_function.py:182` and `:220`): `key.lower().split('.')[-1]`. -/
def fileExtension (key : String) : String := lastD (pySplit '.' (pyLower key)) ""

/-- Independent characterization used to settle C2: the suffix of `l` after the
last occurrence of `c`, and `l` itself when `c` does not occur.  `acc` holds
the (reversed) characters seen since the last separator. -/
def afterLastSepAux (c : Char) : List Char → List Char → List Char
  | [], acc => acc.reverse
  | x :: xs, acc =>
    if x = c then afterLastSepAux c xs []
    else afterLastSepAux c xs (x :: acc)

/-! ## Byte-level codecs appearing in the source -/

/-- The `latin-1` codec (`content.decode('latin-1')`,
`lambda_function.py:318`): each byte 0–255 maps to the Unicode code point of
the same value; a value outside the byte range has no mapping. -/
def latin1DecodeChars : List Nat → Option (List Char)
  | [] => some []
  | b :: bs =>
    if b < 256 then (latin1DecodeChars bs).map (fun cs => Char.ofNat b :: cs)
    else none

/-- Python `content.decode('latin-1')` on a byte string, `none` modelling a
raised `UnicodeDecodeError`. -/
def latin1Decode (content : List Nat) : Option String :=
  (latin1DecodeChars content).map String.mk

def base64Alphabet : List Char :=
  "ABCDEFGHIJKLMNOPQRSTUVWXYZabcdefghijklmnopqrstuvwxyz0123456789+/".data

def b64Char (n : Nat) : Char := base64Alphabet.getD n 'A'

/-- Standard base64 of a byte string
(`base64.b64encode(document_content).decode('utf-8')`,
`lambda_function.py:217`). -/
def base64EncodeAux : List Nat → List Char
  | [] => []
  | [b1] => [b64Char (b1 / 4), b64Char (b1 % 4 * 16), '=', '=']
  | [b1, b2] =>
    [b64Char (b1 / 4), b64Char (b1 % 4 * 16 + b2 / 16),
     b64Char (b2 % 16 * 4), '=']
  | b1 :: b2 :: b3 :: rest =>
    b64Char (b1 / 4) :: b64Char (b1 % 4 * 16 + b2 / 16) ::
    b64Char (b2 % 16 * 4 + b3 / 64) :: b64Char (b3 % 64) ::
    base64EncodeAux rest

def base64Encode (content : List Nat) : String := String.mk (base64EncodeAux content)

/-- Python `str(KeyError(k))`, the message of a missing-dictionary-key
exception: the key surrounded by single quotes. -/
def squote : String := String.mk [Char.ofNat 39]

def keyError (k : String) : String := squote ++ k ++ squote

/-! ## Data model -/

/-- The fields of an S3 `head_object` response that the source reads
(`lambda_function.py:141-153`); an absent field is `none`
(`dict.get` then supplies the default).  `lastModified` is modelled as its
`isoformat()` string, `metadata` as the user-tag mapping. -/
structure HeadResponse where
  contentType : Option String
  contentLength : Option Nat
  lastModified : Option String
  eTag : Option String
  metadata : Option (List (String × String))
deriving DecidableEq

/-- The dictionary returned by `get_document_metadata`
(`lambda_function.py:148-154` and `:158-164`).  `content_type` is an
`Option String` because the Python value can be `None` (the result of a failed
`mimetypes.guess_type`). -/
structure DocumentMetadata where
  content_type : Option String
  content_length : Nat
  last_modified : String
  etag : String
  metadata : List (String × String)
deriving DecidableEq

/-- The message content of a Bedrock `invoke_model` request body: the vision
request of `extract_text_with_bedrock_data_automation`
(`lambda_function.py:247-265`, a text part plus a base64 image part) or the
plain-text prompt of `generate_summary_with_bedrock`
(`lambda_function.py:359-364`). -/
inductive MessageContent where
  | visionParts (prompt : String) (mediaType : String) (dataB64 : String)
  | plainText (prompt : String)
deriving DecidableEq

/-- A Bedrock `invoke_model` request body.  `temperature` and `top_p` are
stored in tenths (the source's float literals 0.1, 0.3, 0.9 scaled by 10). -/
structure InvokeRequest where
  modelId : String
  anthropicVersion : String
  maxTokens : Nat
  message : MessageContent
  tempTenths : Nat
  topPTenths : Nat
deriving DecidableEq

/-- The parsed JSON body of a Bedrock response as far as the source inspects
it: the optional `content` array, each element reduced to its optional `text`
field (`lambda_function.py:283-284` and `:379-380`). -/
structure BedrockBody where
  content : Option (List (Option String))
deriving DecidableEq

/-- The DynamoDB item assembled by `store_document_data`
(`lambda_function.py:406-417`). -/
structure DocumentItem where
  document_id : String
  bucket : String
  object_key : String
  upload_timestamp : Int
  metadata : DocumentMetadata
  raw_text : String
  summary : String
  processed_at : String
  text_length : Nat
  summary_length : Nat
deriving DecidableEq

/-- One record of the incoming S3 event, reduced to the three field paths the
source reads: `record['eventSource']`, `record['s3']['bucket']['name']` and
`record['s3']['object']['key']`.  `none` models a missing key anywhere along
the path (the access then raises `KeyError`; the flattened model reports the
outermost missing key, `'s3'`, for the nested paths). -/
structure S3Record where
  eventSource : Option String
  bucketName : Option String
  objectKey : Option String
deriving DecidableEq

/-- `record['eventSource']` with its `KeyError` on absence. -/
def S3Record.getES (r : S3Record) : Except String String :=
  match r.eventSource with
  | some s => .ok s
  | none => .error (keyError "eventSource")

/-- `record['s3']['bucket']['name']` with its `KeyError` on absence. -/
def S3Record.getBucket (r : S3Record) : Except String String :=
  match r.bucketName with
  | some s => .ok s
  | none => .error (keyError "s3")

/-- `record['s3']['object']['key']` with its `KeyError` on absence. -/
def S3Record.getKey (r : S3Record) : Except String String :=
  match r.objectKey with
  | some s => .ok s
  | none => .error (keyError "s3")

/-- The per-record dictionary returned by `process_s3_record`: either the
success shape of `lambda_function.py:110-117` or the error shape of
`lambda_function.py:121-126`. -/
inductive ProcessingResult where
  | processed (document_id bucket key : String)
      (text_length summary_length : Nat)
  | error (bucket key message : String)
deriving DecidableEq

/-- The `status` field of a Processing Result. -/
def ProcessingResult.status : ProcessingResult → String
  | .processed _ _ _ _ _ => "processed"
  | .error _ _ _ => "error"

/-- The incoming Lambda event, reduced to its `Records` entry (`none` models a
payload without a `Records` key, whose access raises `KeyError`). -/
structure LambdaEvent where
  records : Option (List S3Record)

/-- The handler's return value: `statusCode` 200 with the results list
(`lambda_function.py:53-59`) or `statusCode` 500 with the error message
(`lambda_function.py:63-68`); the `json.dumps` serialization of the body is
not modelled. -/
inductive LambdaResponse where
  | success (results : List ProcessingResult)
  | failure (message : String)
deriving DecidableEq

def LambdaResponse.statusCode : LambdaResponse → Nat
  | .success _ => 200
  | .failure _ => 500

/-- The environment of external collaborators and library routines: the three
AWS clients (each fallible call is `Except String` carrying `str(e)`), the
CPython routines `unquote_plus` and `mimetypes.guess_type`, the UTF-8 codec
(strict and `errors='ignore'` variants), the `uuid.uuid4` stream (indexed by
the per-batch record position), `datetime.now()`, and the
`BEDROCK_MODEL_ID` configuration value. -/
structure Env where
  headObject : String → String → Except String HeadResponse
  getObject : String → String → Except String (List Nat)
  invokeModel : InvokeRequest → Except String BedrockBody
  putItem : DocumentItem → Except String Unit
  unquotePlus : String → String
  guessType : String → Option String
  utf8Decode : List Nat → Option String
  utf8DecodeIgnore : List Nat → String
  uuid : Nat → String
  nowIso : String
  nowTimestamp : Int
  modelId : String

/-! ## The Metadata Fetcher: `get_document_metadata` (lines 129-164) -/

/-- `get_document_metadata(bucket, key)`: on a successful `head_object`,
content type is `response.get('ContentType', '')` when truthy, else
`mimetypes.guess_type(key)` (possibly `None`); on any fetch error the degraded
dictionary of lines 158-164 is returned — the function never raises. -/
def get_document_metadata (env : Env) (bucket key : String) : DocumentMetadata :=
  match env.headObject bucket key with
  | .ok resp =>
    let ct0 := resp.contentType.getD ""
    { content_type := if ct0 = "" then env.guessType key else some ct0
      content_length := resp.contentLength.getD 0
      last_modified := resp.lastModified.getD env.nowIso
      etag := pyStripChar (Char.ofNat 34) (resp.eTag.getD "")
      metadata := resp.metadata.getD [] }
  | .error _ =>
    { content_type := some "unknown"
      content_length := 0
      last_modified := env.nowIso
      etag := ""
      metadata := [] }

/-! ## The Direct Decoder: `extract_text_directly` (lines 297-326) -/

/-- Which branch of the decode chain of lines 313-320 produced the result. -/
inductive DecodeBranch where
  | utf8
  | latin1
  | utf8Ignore
deriving DecidableEq

/-- The decode chain of lines 313-320: try UTF-8, on `UnicodeDecodeError` try
latin-1, on `UnicodeDecodeError` decode UTF-8 with `errors='ignore'`.  Returns
the decoded text together with the branch that produced it. -/
def decodeBytes (env : Env) (content : List Nat) : String × DecodeBranch :=
  match env.utf8Decode content with
  | some t => (t, .utf8)
  | none =>
    match latin1Decode content with
    | some t => (t, .latin1)
    | none => (env.utf8DecodeIgnore content, .utf8Ignore)

/-- `extract_text_directly(bucket, key)`: read the object and decode it; a
fetch error yields the placeholder of line 326. -/
def extract_text_directly (env : Env) (bucket key : String) : String :=
  match env.getObject bucket key with
  | .ok content => (decodeBytes env content).1
  | .error e => "Unable to extract text from file: " ++ e

/-! ## The Vision-Inference Extractor:
`extract_text_with_bedrock_data_automation` (lines 196-294) -/

/-- The extraction prompt literal of lines 233-241. -/
def bdaPrompt : String :=
  "\n        Please extract all text content from this document. \n        Provide the extracted text in a clean, readable format.\n        Maintain the original structure and formatting where possible.\n        If there are tables, preserve their structure.\n        If there are multiple sections, clearly separate them.\n        \n        Return only the extracted text content, without any additional commentary.\n        "

/-- The `media_type_map` of lines 221-229. -/
def media_type_map : List (String × String) :=
  [("pdf", "application/pdf"), ("png", "image/png"), ("jpg", "image/jpeg"),
   ("jpeg", "image/jpeg"), ("tiff", "image/tiff"), ("gif", "image/gif"),
   ("bmp", "image/bmp")]

/-- The vision request body built in lines 244-268 for the given key and
object content. -/
def bdaRequest (env : Env) (key : String) (content : List Nat) : InvokeRequest :=
  { modelId := env.modelId
    anthropicVersion := "bedrock-2023-05-31"
    maxTokens := 8000
    message := .visionParts bdaPrompt
      ((media_type_map.lookup (fileExtension key)).getD "application/octet-stream")
      (base64Encode content)
    tempTenths := 1
    topPTenths := 9 }

/-- `extract_text_with_bedrock_data_automation(bucket, key)`: read the object,
call the inference endpoint with the vision request, and inspect the response
content; ANY exception in the `try` block (fetch failure, endpoint failure, or
the `KeyError` from a content item without a `text` field) falls back to
`extract_text_directly` on the same bucket and key (line 294).  The second
component is the trace of endpoint calls made by this function. -/
def extract_text_with_bedrock_data_automation (env : Env) (bucket key : String) :
    String × List InvokeRequest :=
  match env.getObject bucket key with
  | .error _ => (extract_text_directly env bucket key, [])
  | .ok content =>
    match env.invokeModel (bdaRequest env key content) with
    | .error _ => (extract_text_directly env bucket key, [bdaRequest env key content])
    | .ok body =>
      match body.content with
      | some (some t :: _) => (pyStrip t, [bdaRequest env key content])
      | some (none :: _) =>
        (extract_text_directly env bucket key, [bdaRequest env key content])
      | _ =>
        ("Unable to extract text - empty response from Bedrock",
         [bdaRequest env key content])

/-! ## The Text Extractor: `extract_text_from_document` (lines 167-193) -/

/-- The extension list of line 184. -/
def visionExtensions : List String :=
  ["pdf", "png", "jpg", "jpeg", "tiff", "gif", "bmp"]

/-- Which extraction strategy the dispatch of lines 184-189 selects. -/
inductive ExtractorBranch where
  | vision
  | direct
deriving DecidableEq

/-- The dispatch decision of lines 182-189. -/
def dispatchBranch (key : String) : ExtractorBranch :=
  if fileExtension key ∈ visionExtensions then .vision else .direct

/-- `extract_text_from_document(bucket, key)`: dispatch on the file extension.
The enclosing `try`/`except` of lines 178-193 is not modelled because both
callees are total in the model (each already converts every failure to a
string), making the handler unreachable. -/
def extract_text_from_document (env : Env) (bucket key : String) :
    String × List InvokeRequest :=
  if fileExtension key ∈ visionExtensions then
    extract_text_with_bedrock_data_automation env bucket key
  else
    (extract_text_directly env bucket key, [])

/-! ## The Summarizer: `generate_summary_with_bedrock` (lines 329-387) -/

/-- The part of the f-string of lines 344-353 before `{text[:8000]}`. -/
def summaryPromptPre : String :=
  "\n        Please provide a comprehensive summary of the following document. \n        Include the main topics, key points, and any important details.\n        Keep the summary clear and well-structured.\n        \n        Document text:\n        "

/-- The part of the f-string of lines 344-353 after `{text[:8000]}`: it begins
with the source-code comment text `  # Limit text to avoid token limits`,
which sits inside the triple-quoted literal and is therefore part of the
prompt. -/
def summaryPromptPost : String :=
  "  # Limit text to avoid token limits\n        \n        Summary:\n        "

/-- The summarization request body built in lines 344-367. -/
def summaryRequest (env : Env) (text : String) : InvokeRequest :=
  { modelId := env.modelId
    anthropicVersion := "bedrock-2023-05-31"
    maxTokens := 1000
    message := .plainText (summaryPromptPre ++ text.take 8000 ++ summaryPromptPost)
    tempTenths := 3
    topPTenths := 9 }

/-- `generate_summary_with_bedrock(text)`: the short-text guard of lines
340-341 (`not text or len(text.strip()) < 50`), then the endpoint call; any
exception (endpoint failure, or the `KeyError` from a content item without a
`text` field) yields the `"Error generating summary: ..."` placeholder of
line 387.  The second component is the trace of endpoint calls made. -/
def generate_summary_with_bedrock (env : Env) (text : String) :
    String × List InvokeRequest :=
  if text = "" ∨ (pyStrip text).length < 50 then
    ("Text too short to summarize effectively.", [])
  else
    match env.invokeModel (summaryRequest env text) with
    | .error e => ("Error generating summary: " ++ e, [summaryRequest env text])
    | .ok body =>
      match body.content with
      | some (some t :: _) => (pyStrip t, [summaryRequest env text])
      | some (none :: _) =>
        ("Error generating summary: " ++ keyError "text", [summaryRequest env text])
      | _ =>
        ("Unable to generate summary - empty response from model.",
         [summaryRequest env text])

/-! ## The Record Writer: `store_document_data` (lines 390-426) -/

/-- The DynamoDB item of lines 406-417. -/
def storedItem (env : Env) (document_id bucket key : String)
    (metadata : DocumentMetadata) (raw_text summary : String) : DocumentItem :=
  { document_id := document_id
    bucket := bucket
    object_key := key
    upload_timestamp := env.nowTimestamp
    metadata := metadata
    raw_text := raw_text
    summary := summary
    processed_at := env.nowIso
    text_length := raw_text.length
    summary_length := summary.length }

/-- `store_document_data(...)`: persist the item; a persistence error is
logged and RE-RAISED (lines 424-426), so the `Except` propagates unchanged —
the only repository function that lets a failure escape. -/
def store_document_data (env : Env) (document_id bucket key : String)
    (metadata : DocumentMetadata) (raw_text summary : String) :
    Except String Unit :=
  env.putItem (storedItem env document_id bucket key metadata raw_text summary)

/-! ## The Event Dispatcher: `process_s3_record` and `lambda_handler`
(lines 31-126) -/

/-- The extracted text computed for a bucket and an (already URL-decoded)
key. -/
def pipelineText (env : Env) (bucket key : String) : String :=
  (extract_text_from_document env bucket key).1

/-- The summary computed for a bucket and an (already URL-decoded) key. -/
def pipelineSummary (env : Env) (bucket key : String) : String :=
  (generate_summary_with_bedrock env (pipelineText env bucket key)).1

/-- The DynamoDB item that the pipeline assembles for record position `idx`,
bucket `bucket` and RAW (still URL-encoded) key `rawKey`. -/
def pipelineItem (env : Env) (idx : Nat) (bucket rawKey : String) : DocumentItem :=
  storedItem env (env.uuid idx) bucket (env.unquotePlus rawKey)
    (get_document_metadata env bucket (env.unquotePlus rawKey))
    (pipelineText env bucket (env.unquotePlus rawKey))
    (pipelineSummary env bucket (env.unquotePlus rawKey))

/-- The `try` body of `process_s3_record` (lines 82-117): field extraction can
raise `KeyError`; metadata, extraction and summarization are total; the store
step can raise.  `idx` is the record's position in the batch, seeding the
`uuid.uuid4()` stream. -/
def processBody (env : Env) (idx : Nat) (record : S3Record) :
    Except String ProcessingResult :=
  match record.getBucket with
  | .error e => .error e
  | .ok bucket =>
    match record.getKey with
    | .error e => .error e
    | .ok rawKey =>
      match store_document_data env (env.uuid idx) bucket (env.unquotePlus rawKey)
          (get_document_metadata env bucket (env.unquotePlus rawKey))
          (pipelineText env bucket (env.unquotePlus rawKey))
          (pipelineSummary env bucket (env.unquotePlus rawKey)) with
      | .error e => .error e
      | .ok _ =>
        .ok (.processed (env.uuid idx) bucket (env.unquotePlus rawKey)
          (pipelineText env bucket (env.unquotePlus rawKey)).length
          (pipelineSummary env bucket (env.unquotePlus rawKey)).length)

/-- `process_s3_record(record)`: the `try` body, and on any exception the
handler of lines 119-126 — which itself re-reads
`record['s3']['bucket']['name']` and `record['s3']['object']['key']`, so a
record with those fields missing makes the HANDLER raise and the exception
escape `process_s3_record`. -/
def process_s3_record (env : Env) (idx : Nat) (record : S3Record) :
    Except String ProcessingResult :=
  match processBody env idx record with
  | .ok r => .ok r
  | .error e =>
    match record.getBucket with
    | .error e2 => .error e2
    | .ok bucket =>
      match record.getKey with
      | .error e2 => .error e2
      | .ok rawKey => .ok (.error bucket (env.unquotePlus rawKey) e)

/-- The record loop of lines 46-50: `record['eventSource']` can raise; records
whose event source is `'aws:s3'` are processed in order, each consuming one
position of the uuid stream; an exception escaping `process_s3_record`
aborts the loop. -/
def handlerLoop (env : Env) : Nat → List S3Record →
    Except String (List ProcessingResult)
  | _, [] => .ok []
  | idx, r :: rs =>
    match r.getES with
    | .error e => .error e
    | .ok src =>
      if src = "aws:s3" then
        match process_s3_record env idx r with
        | .error e => .error e
        | .ok res =>
          match handlerLoop env (idx + 1) rs with
          | .error e => .error e
          | .ok rest => .ok (res :: rest)
      else
        handlerLoop env idx rs

/-- The `try` body of `lambda_handler`: `event['Records']` access plus the
record loop. -/
def handlerBody (env : Env) (event : LambdaEvent) :
    Except String (List ProcessingResult) :=
  match event.records with
  | none => .error (keyError "Records")
  | some rs => handlerLoop env 0 rs

/-- `lambda_handler(event, context)` (lines 31-68): a 200 response with the
per-record results, or — when an exception escapes the loop — a 500 response
with the error message. -/
def lambda_handler (env : Env) (event : LambdaEvent) : LambdaResponse :=
  match handlerBody env event with
  | .ok results => .success results
  | .error e => .failure e

/-! ## Concrete environments for witnesses and counterexamples -/

/-- ASCII fragment of the strict UTF-8 codec, used as the `utf8Decode`
instance of the concrete test environments: bytes below 128 decode to
themselves, any other byte fails the strict decode. -/
def asciiDecodeChars : List Nat → Option (List Char)
  | [] => some []
  | b :: bs =>
    if b < 128 then (asciiDecodeChars bs).map (fun cs => Char.ofNat b :: cs)
    else none

def asciiDecode (content : List Nat) : Option String :=
  (asciiDecodeChars content).map String.mk

/-- A concrete environment in which every collaborator succeeds.  The stored
object is the five bytes of "Hello". -/
def baseEnv : Env :=
  { headObject := fun _ _ => .ok
      { contentType := some "text/plain"
        contentLength := some 5
        lastModified := some "2024-01-01T00:00:00"
        eTag := some "\"abc\""
        metadata := some [] }
    getObject := fun _ _ => .ok [72, 101, 108, 108, 111]
    invokeModel := fun _ => .ok { content := some [some "model output"] }
    putItem := fun _ => .ok ()
    unquotePlus := fun s => s
    guessType := fun _ => none
    utf8Decode := asciiDecode
    utf8DecodeIgnore := fun content =>
      String.mk ((content.filter (fun b => b < 128)).map Char.ofNat)
    uuid := fun i => "doc-" ++ toString i
    nowIso := "2024-06-01T12:00:00"
    nowTimestamp := 1717243200
    modelId := "anthropic.claude-3" }

/-- `baseEnv` with an inference endpoint that always raises. -/
def bedrockDownEnv : Env :=
  { baseEnv with invokeModel := fun _ => .error "ServiceUnavailable" }

/-- `baseEnv` with a metadata fetch that always raises. -/
def headFailEnv : Env :=
  { baseEnv with headObject := fun _ _ => .error "AccessDenied" }

/-- A `head_object` response that reports no content type. -/
def noTypeHead : HeadResponse :=
  { contentType := none
    contentLength := some 5
    lastModified := some "2024-01-01T00:00:00"
    eTag := some "\"abc\""
    metadata := some [] }

/-- `baseEnv` with a metadata fetch that reports no content type, for a key
whose type is unguessable. -/
def noTypeEnv : Env :=
  { baseEnv with headObject := fun _ _ => .ok noTypeHead }

/-- The record-store behavior of `putFailEnv`: reject the item for object key
`bad.txt`, accept every other item. -/
def rejectBadPut (item : DocumentItem) : Except String Unit :=
  if item.object_key = "bad.txt" then .error "ProvisionedThroughputExceeded"
  else .ok ()

/-- `baseEnv` with the record store `rejectBadPut`. -/
def putFailEnv : Env :=
  { baseEnv with putItem := rejectBadPut }

/-- A well-formed upload record whose item the store of `putFailEnv`
rejects. -/
def demoRecBad : S3Record := ⟨some "aws:s3", some "b", some "bad.txt"⟩

/-- A well-formed upload record whose item every store of this file
accepts. -/
def demoRecGood : S3Record := ⟨some "aws:s3", some "b", some "good.txt"⟩

/-- A malformed upload record: it carries the `aws:s3` event-source tag but
has no `s3` entry, so both nested field accesses raise `KeyError('s3')`. -/
def demoRecMalformed : S3Record := ⟨some "aws:s3", none, none⟩

/-- A 60-character text, long enough to pass the Summarizer's short-text
guard. -/
def longText : String := String.mk (List.replicate 60 'a')

/-! ## Helper lemmas -/

theorem lastD_default_irrel {α : Type} (l : List α) (d1 d2 : α) (h : l ≠ []) :
    lastD l d1 = lastD l d2 := by
  match l with
  | [] => exact absurd rfl h
  | [a] => rfl
  | a :: b :: t => simp only [lastD]; exact lastD_default_irrel (b :: t) d1 d2 (by simp)

theorem lastD_cons {α : Type} (l : List α) (a d : α) :
    lastD (a :: l) d = lastD l a := by
  match l with
  | [] => rfl
  | b :: t =>
    show lastD (b :: t) d = lastD (b :: t) a
    exact lastD_default_irrel (b :: t) d a (by simp)

theorem lastD_map {α β : Type} (f : α → β) (l : List α) (d : α) :
    lastD (l.map f) (f d) = f (lastD l d) := by
  match l with
  | [] => rfl
  | [a] => rfl
  | a :: b :: t =>
    simp only [List.map, lastD]
    exact lastD_map f (b :: t) d

theorem pySplitAux_ne_nil (c : Char) (l acc : List Char) :
    pySplitAux c l acc ≠ [] := by
  induction l generalizing acc with
  | nil => simp [pySplitAux]
  | cons x xs ih =>
    unfold pySplitAux
    by_cases h : x = c
    · simp [h]
    · simp only [if_neg h]; exact ih _

/-- The last field of a Python split is the suffix after the last separator
(with the pending accumulator folded in). -/
theorem pySplitAux_lastD (c : Char) (l acc : List Char) :
    lastD (pySplitAux c l acc) [] = afterLastSepAux c l acc := by
  induction l generalizing acc with
  | nil => rfl
  | cons x xs ih =>
    unfold pySplitAux afterLastSepAux
    by_cases h : x = c
    · simp only [if_pos h]
      rw [lastD_cons, lastD_default_irrel (pySplitAux c xs []) acc.reverse []
        (pySplitAux_ne_nil c xs [])]
      exact ih []
    · simp only [if_neg h]
      exact ih (x :: acc)

theorem afterLastSepAux_of_not_mem (c : Char) (l acc : List Char)
    (h : c ∉ l) : afterLastSepAux c l acc = acc.reverse ++ l := by
  induction l generalizing acc with
  | nil => simp [afterLastSepAux]
  | cons x xs ih =>
    have hx : ¬ x = c := fun hxc => h (hxc ▸ List.mem_cons_self x xs)
    unfold afterLastSepAux
    rw [if_neg hx, ih (x :: acc) (fun hm => h (List.mem_cons_of_mem x hm))]
    simp

/-- `fileExtension` in closed form: the suffix of the lower-cased key after
the last dot (the whole lower-cased key when there is no dot). -/
theorem fileExtension_eq_afterLastSep (key : String) :
    fileExtension key = String.mk (afterLastSepAux '.' (pyLower key).data []) := by
  unfold fileExtension pySplit
  have h1 : (""  : String) = String.mk [] := rfl
  rw [h1, lastD_map String.mk (pySplitAux '.' (pyLower key).data []) []]
  rw [pySplitAux_lastD]

theorem latin1DecodeChars_isSome (content : List Nat)
    (h : ∀ b ∈ content, b < 256) : (latin1DecodeChars content).isSome := by
  induction content with
  | nil => rfl
  | cons b bs ih =>
    unfold latin1DecodeChars
    rw [if_pos (h b (List.mem_cons_self b bs))]
    have := ih (fun x hx => h x (List.mem_cons_of_mem b hx))
    cases hc : latin1DecodeChars bs with
    | none => rw [hc] at this; exact absurd this (by simp)
    | some cs => simp [hc]

/-- When the Summarizer's short-text guard does not fire, exactly one endpoint
call is made, the summarization request. -/
theorem summary_trace (env : Env) (text : String)
    (h : ¬ (text = "" ∨ (pyStrip text).length < 50)) :
    (generate_summary_with_bedrock env text).2 = [summaryRequest env text] := by
  unfold generate_summary_with_bedrock
  rw [if_neg h]
  cases hm : env.invokeModel (summaryRequest env text) with
  | error e => rfl
  | ok body =>
    obtain ⟨content⟩ := body
    rcases content with _ | (_ | ⟨_ | t, rest⟩) <;> rfl

/-- A text whose stripped length is at least 50 fails the short-text guard. -/
theorem guard_not_fired (text : String) (h : 50 ≤ (pyStrip text).length) :
    ¬ (text = "" ∨ (pyStrip text).length < 50) := by
  rintro (he | hl)
  · subst he; exact absurd h (by decide)
  · omega

/-- The `try` body of `process_s3_record` on a record with readable fields is
decided by the store call on the pipeline's item. -/
theorem processBody_eq (env : Env) (idx : Nat) (r : S3Record) (b k : String)
    (hb : r.bucketName = some b) (hk : r.objectKey = some k) :
    processBody env idx r =
      match env.putItem (pipelineItem env idx b k) with
      | .ok _ => .ok (.processed (env.uuid idx) b (env.unquotePlus k)
          (pipelineText env b (env.unquotePlus k)).length
          (pipelineSummary env b (env.unquotePlus k)).length)
      | .error e => .error e := by
  unfold processBody S3Record.getBucket S3Record.getKey
  simp only [hb, hk]
  unfold store_document_data pipelineItem
  cases hput : env.putItem (storedItem env (env.uuid idx) b (env.unquotePlus k)
      (get_document_metadata env b (env.unquotePlus k))
      (pipelineText env b (env.unquotePlus k))
      (pipelineSummary env b (env.unquotePlus k))) with
  | ok u => rfl
  | error e => rfl

/-- On a record with readable fields, `process_s3_record` never lets an
exception escape, and the result carries one of the two status tags. -/
theorem process_s3_record_status (env : Env) (idx : Nat) (r : S3Record)
    (b k : String) (hb : r.bucketName = some b) (hk : r.objectKey = some k) :
    ∃ res, process_s3_record env idx r = .ok res ∧
      (res.status = "processed" ∨ res.status = "error") := by
  have h := processBody_eq env idx r b k hb hk
  unfold process_s3_record
  rw [h]
  cases hput : env.putItem (pipelineItem env idx b k) with
  | ok u => exact ⟨_, rfl, Or.inl rfl⟩
  | error e =>
    unfold S3Record.getBucket S3Record.getKey
    rw [hb, hk]
    exact ⟨_, rfl, Or.inr rfl⟩

/-- The record loop on a batch of records with readable fields: no exception
escapes, one Processing Result is collected per `aws:s3` record, and each
result carries one of the two status tags. -/
theorem handlerLoop_ok (env : Env) (records : List S3Record) :
    ∀ idx : Nat,
    (∀ r ∈ records,
      r.eventSource.isSome ∧ r.bucketName.isSome ∧ r.objectKey.isSome) →
    ∃ results, handlerLoop env idx records = .ok results ∧
      results.length =
        (records.filter (fun r => decide (r.eventSource = some "aws:s3"))).length ∧
      ∀ res ∈ results, res.status = "processed" ∨ res.status = "error" := by
  induction records with
  | nil =>
    intro idx _
    exact ⟨[], rfl, rfl, by intro res hres; cases hres⟩
  | cons r rs ih =>
    intro idx hall
    obtain ⟨hes, hbn, hkn⟩ := hall r (List.mem_cons_self r rs)
    obtain ⟨s, hs⟩ := Option.isSome_iff_exists.mp hes
    obtain ⟨b, hb⟩ := Option.isSome_iff_exists.mp hbn
    obtain ⟨k, hk⟩ := Option.isSome_iff_exists.mp hkn
    have hrest : ∀ x ∈ rs,
        x.eventSource.isSome ∧ x.bucketName.isSome ∧ x.objectKey.isSome :=
      fun x hx => hall x (List.mem_cons_of_mem r hx)
    by_cases hsrc : s = "aws:s3"
    · subst hsrc
      obtain ⟨res, hres, hstat⟩ := process_s3_record_status env idx r b k hb hk
      obtain ⟨rest, hloop, hlen, hallres⟩ := ih (idx + 1) hrest
      refine ⟨res :: rest, ?_, ?_, ?_⟩
      · simp [handlerLoop, S3Record.getES, hs, hres, hloop]
      · simp [List.filter_cons, hs, hlen]
      · intro x hx
        rcases List.mem_cons.mp hx with hx1 | hx2
        · subst hx1; exact hstat
        · exact hallres x hx2
    · obtain ⟨rest, hloop, hlen, hallres⟩ := ih idx hrest
      refine ⟨rest, ?_, ?_, hallres⟩
      · simp [handlerLoop, S3Record.getES, hs, hsrc, hloop]
      · simp [List.filter_cons, hs, hsrc, hlen]

/-! ## Claim C1 -/

/-- C1, counterexample: the claimed per-item isolation does NOT hold "for any
notification record shape".  A batch of two upload-event notifications whose
first record lacks the `s3` field makes the error handler of
`process_s3_record` itself raise `KeyError('s3')`, aborting the whole batch
with a 500 response instead of returning one Processing Result per item. -/
theorem c1_counterexample :
    lambda_handler baseEnv ⟨some [demoRecMalformed, demoRecGood]⟩ =
      LambdaResponse.failure (keyError "s3")
    ∧ (lambda_handler baseEnv ⟨some [demoRecMalformed, demoRecGood]⟩).statusCode
        = 500 := by
  exact ⟨rfl, rfl⟩

/-- C1 (amended): for every batch whose records each carry the event-source
tag and the s3 bucket-name and object-key fields, a failure while processing
one notification never aborts the batch: the handler returns a success
response with exactly one Processing Result per `aws:s3` record, each tagged
`processed` or `error`. -/
theorem c1_per_item_isolation_wellformed (env : Env) (records : List S3Record)
    (h : ∀ r ∈ records,
      r.eventSource.isSome ∧ r.bucketName.isSome ∧ r.objectKey.isSome) :
    ∃ results, lambda_handler env ⟨some records⟩ = .success results ∧
      results.length =
        (records.filter (fun r => decide (r.eventSource = some "aws:s3"))).length ∧
      ∀ res ∈ results, res.status = "processed" ∨ res.status = "error" := by
  obtain ⟨results, hloop, hlen, hall⟩ := handlerLoop_ok env records 0 h
  refine ⟨results, ?_, hlen, hall⟩
  have hred : lambda_handler env ⟨some records⟩ =
      match handlerLoop env 0 records with
      | .ok rs => .success rs
      | .error e => .failure e := rfl
  rw [hred, hloop]

/-- C1, witness: a concrete two-record batch in which the store rejects the
first item; the handler still returns a success response with two results. -/
theorem c1_witness :
    (∀ r ∈ [demoRecBad, demoRecGood],
      r.eventSource.isSome ∧ r.bucketName.isSome ∧ r.objectKey.isSome)
    ∧ ∃ results,
        lambda_handler putFailEnv ⟨some [demoRecBad, demoRecGood]⟩ =
          .success results ∧
        results.length =
          ([demoRecBad, demoRecGood].filter
            (fun r => decide (r.eventSource = some "aws:s3"))).length ∧
        ∀ res ∈ results, res.status = "processed" ∨ res.status = "error" :=
  ⟨by decide,
   c1_per_item_isolation_wellformed putFailEnv [demoRecBad, demoRecGood]
     (by decide)⟩

/-! ## Claim C2 -/

/-- C2, counterexample: a key containing no `.` does NOT yield the empty
extension, and the dot-less key `"pdf"` does NOT take the Direct Decoder
path: `"pdf".split('.')[-1]` is `"pdf"` itself, which is in the vision list,
so the Vision-Inference Extractor is chosen. -/
theorem c2_counterexample :
    fileExtension "pdf" = "pdf"
    ∧ ¬ fileExtension "pdf" = ""
    ∧ dispatchBranch "pdf" = ExtractorBranch.vision := by
  decide

/-- C2 (amended): the Text Extractor derives the extension as the lower-cased
suffix of the key after the last `.`, with a key containing no `.` yielding
the WHOLE lower-cased key (not the empty string); it delegates to the
Vision-Inference Extractor exactly when that extension is in
{pdf, png, jpg, jpeg, tiff, gif, bmp} (so the dot-less key "pdf" takes the
vision path). -/
theorem c2_extension_dispatch (key : String) :
    fileExtension key = String.mk (afterLastSepAux '.' (pyLower key).data [])
    ∧ ('.' ∉ (pyLower key).data → fileExtension key = pyLower key)
    ∧ (dispatchBranch key = ExtractorBranch.vision ↔
        fileExtension key ∈ visionExtensions) := by
  refine ⟨fileExtension_eq_afterLastSep key, ?_, ?_⟩
  · intro hnd
    rw [fileExtension_eq_afterLastSep key, afterLastSepAux_of_not_mem _ _ _ hnd]
    rfl
  · unfold dispatchBranch
    by_cases hmem : fileExtension key ∈ visionExtensions
    · simp [hmem]
    · simp [hmem]

/-- C2, witness: the dot-less key `"pdf"` keeps its whole lower-cased self as
extension, the key `"x.pdf"` dispatches to the vision path, and the mixed-case
key `"a.PDF"` satisfies the suffix characterization. -/
theorem c2_witness :
    fileExtension "pdf" = pyLower "pdf"
    ∧ dispatchBranch "x.pdf" = ExtractorBranch.vision
    ∧ fileExtension "a.PDF" =
        String.mk (afterLastSepAux '.' (pyLower "a.PDF").data []) :=
  ⟨(c2_extension_dispatch "pdf").2.1 (by decide),
   ((c2_extension_dispatch "x.pdf").2.2).mpr (by decide),
   (c2_extension_dispatch "a.PDF").1⟩

/-! ## Claim C3 -/

/-- C3: for every bucket and key, if the Vision-Inference Extractor's
inference-endpoint call raises, the value it returns equals the value the
Direct Decoder (`extract_text_directly`) returns on the same bucket and
key. -/
theorem c3_bedrock_fallback_equivalence (env : Env) (bucket key : String)
    (content : List Nat) (e : String)
    (hget : env.getObject bucket key = .ok content)
    (hinv : env.invokeModel (bdaRequest env key content) = .error e) :
    (extract_text_with_bedrock_data_automation env bucket key).1 =
      extract_text_directly env bucket key := by
  unfold extract_text_with_bedrock_data_automation
  simp only [hget, hinv]

/-- C3, witness: with an endpoint that always raises, the vision extractor on
`scan.png` returns exactly what the Direct Decoder returns. -/
theorem c3_witness :
    bedrockDownEnv.getObject "b" "scan.png" = .ok [72, 101, 108, 108, 111]
    ∧ (extract_text_with_bedrock_data_automation bedrockDownEnv "b" "scan.png").1 =
        extract_text_directly bedrockDownEnv "b" "scan.png" :=
  ⟨rfl,
   c3_bedrock_fallback_equivalence bedrockDownEnv "b" "scan.png"
     [72, 101, 108, 108, 111] "ServiceUnavailable" rfl rfl⟩

/-! ## Claim C4 -/

/-- C4: in a batch of two upload notifications, if the record-store write for
the first fails with message `e` (the Record Writer re-raises it) and the
write for the second succeeds, the first notification's Processing Result is
the `error` entry carrying `e` and the second is still a `processed` entry in
the same result list. -/
theorem c4_store_failure_isolation (env : Env) (idx : Nat) (r1 r2 : S3Record)
    (b1 k1 b2 k2 e : String)
    (hs1 : r1.eventSource = some "aws:s3") (hb1 : r1.bucketName = some b1)
    (hk1 : r1.objectKey = some k1)
    (hs2 : r2.eventSource = some "aws:s3") (hb2 : r2.bucketName = some b2)
    (hk2 : r2.objectKey = some k2)
    (hput1 : env.putItem (pipelineItem env idx b1 k1) = .error e)
    (hput2 : env.putItem (pipelineItem env (idx + 1) b2 k2) = .ok ()) :
    handlerLoop env idx [r1, r2] = .ok
      [ProcessingResult.error b1 (env.unquotePlus k1) e,
       ProcessingResult.processed (env.uuid (idx + 1)) b2 (env.unquotePlus k2)
         (pipelineText env b2 (env.unquotePlus k2)).length
         (pipelineSummary env b2 (env.unquotePlus k2)).length] := by
  have h1 := processBody_eq env idx r1 b1 k1 hb1 hk1
  have h2 := processBody_eq env (idx + 1) r2 b2 k2 hb2 hk2
  simp only [hput1] at h1
  simp only [hput2] at h2
  simp [handlerLoop, process_s3_record, S3Record.getES, S3Record.getBucket,
    S3Record.getKey, hs1, hs2, hb1, hk1, hb2, hk2, h1, h2]

/-- C4, witness: the concrete batch `[demoRecBad, demoRecGood]` under
`putFailEnv` yields the error entry with the store's message alongside the
processed entry. -/
theorem c4_witness :
    handlerLoop putFailEnv 0 [demoRecBad, demoRecGood] = .ok
      [ProcessingResult.error "b" "bad.txt" "ProvisionedThroughputExceeded",
       ProcessingResult.processed "doc-1" "b" "good.txt" 5 40] :=
  (c4_store_failure_isolation putFailEnv 0 demoRecBad demoRecGood
    "b" "bad.txt" "b" "good.txt" "ProvisionedThroughputExceeded"
    rfl rfl rfl rfl rfl rfl (by rfl) (by rfl)).trans rfl

/-! ## Claim C5 -/

/-- C5, counterexample: on a successful fetch that reports no content type,
for a key whose type the extension-based guess cannot determine, the
content-type is Python `None` — NOT the string "unknown" the claim
asserts. -/
theorem c5_counterexample :
    (get_document_metadata noTypeEnv "b" "file.xyz").content_type = none
    ∧ ¬ (get_document_metadata noTypeEnv "b" "file.xyz").content_type
        = some "unknown" := by
  decide

/-- C5 (amended): for every successful metadata fetch, the content-type is
the store-reported content type when that is non-empty; otherwise it is the
result of the extension-based guess — which may be absent (Python `None`).
The string "unknown" is used only on the fetch-failure path. -/
theorem c5_content_type_resolution (env : Env) (bucket key : String)
    (resp : HeadResponse) (h : env.headObject bucket key = .ok resp) :
    (get_document_metadata env bucket key).content_type =
      (if resp.contentType.getD "" = "" then env.guessType key
       else some (resp.contentType.getD "")) := by
  unfold get_document_metadata
  simp only [h]

/-- C5, witness: the resolution rule evaluated on a response with no reported
content type. -/
theorem c5_witness :
    noTypeEnv.headObject "b" "file.xyz" = .ok noTypeHead
    ∧ (get_document_metadata noTypeEnv "b" "file.xyz").content_type =
        (if noTypeHead.contentType.getD "" = "" then
          noTypeEnv.guessType "file.xyz"
         else some (noTypeHead.contentType.getD "")) :=
  ⟨rfl, c5_content_type_resolution noTypeEnv "b" "file.xyz" noTypeHead rfl⟩

/-! ## Claim C6 -/

/-- C6: for every bucket and key, when the metadata fetch fails the Metadata
Fetcher does not raise: it returns the degraded Document Metadata with
content-type "unknown", content-length 0, last-modified = current time, empty
checksum and empty tag mapping.  (In the model `get_document_metadata` is a
total function, so it never raises to its caller.) -/
theorem c6_metadata_degraded_on_error (env : Env) (bucket key e : String)
    (h : env.headObject bucket key = .error e) :
    get_document_metadata env bucket key =
      { content_type := some "unknown", content_length := 0,
        last_modified := env.nowIso, etag := "", metadata := [] } := by
  unfold get_document_metadata
  simp only [h]

/-- C6, witness: the degraded metadata under an environment whose
`head_object` always raises. -/
theorem c6_witness :
    headFailEnv.headObject "b" "k.txt" = .error "AccessDenied"
    ∧ get_document_metadata headFailEnv "b" "k.txt" =
      { content_type := some "unknown", content_length := 0,
        last_modified := "2024-06-01T12:00:00", etag := "", metadata := [] } :=
  ⟨rfl,
   (c6_metadata_degraded_on_error headFailEnv "b" "k.txt" "AccessDenied"
     rfl).trans rfl⟩

/-! ## Claim C7 -/

/-- C7: for every input text that is empty or whose whitespace-trimmed length
is below 50 characters, the Summarizer returns exactly
"Text too short to summarize effectively." and its endpoint-call trace is
empty (no inference-endpoint call is performed). -/
theorem c7_short_text_guard (env : Env) (text : String)
    (h : text = "" ∨ (pyStrip text).length < 50) :
    generate_summary_with_bedrock env text =
      ("Text too short to summarize effectively.", []) := by
  unfold generate_summary_with_bedrock
  rw [if_pos h]

/-- C7, witness: the ten-character text "short text" short-circuits. -/
theorem c7_witness :
    (pyStrip "short text").length < 50
    ∧ generate_summary_with_bedrock baseEnv "short text" =
      ("Text too short to summarize effectively.", []) :=
  ⟨by decide, c7_short_text_guard baseEnv "short text" (Or.inr (by decide))⟩

/-! ## Claim C8 -/

/-- C8: for every input text whose trimmed length is at least 50 characters,
the Summarizer sends exactly one request, whose prompt embeds the first 8000
characters of the input text (`text.take 8000`) between the fixed prompt
fragments of the source's f-string. -/
theorem c8_prompt_truncation (env : Env) (text : String)
    (h : 50 ≤ (pyStrip text).length) :
    (generate_summary_with_bedrock env text).2.map (fun r => r.message) =
      [MessageContent.plainText
        (summaryPromptPre ++ text.take 8000 ++ summaryPromptPost)] := by
  rw [summary_trace env text (guard_not_fired text h)]
  rfl

/-- C8, witness: the 60-character text passes the guard and its request
embeds its first 8000 characters. -/
theorem c8_witness :
    50 ≤ (pyStrip longText).length
    ∧ (generate_summary_with_bedrock baseEnv longText).2.map
        (fun r => r.message) =
      [MessageContent.plainText
        (summaryPromptPre ++ longText.take 8000 ++ summaryPromptPost)] :=
  ⟨by decide, c8_prompt_truncation baseEnv longText (by decide)⟩

/-! ## Claim C9 -/

/-- C9: for every input text whose trimmed length is at least 50 characters,
the prompt sent to the inference endpoint contains, immediately after the
truncated document text, the literal string
`  # Limit text to avoid token limits` — the source-code comment that sits
inside the f-string of lines 344-353 and therefore leaks into every
summarization request. -/
theorem c9_leaked_comment_in_prompt (env : Env) (text : String)
    (h : 50 ≤ (pyStrip text).length) :
    (generate_summary_with_bedrock env text).2.map (fun r => r.message) =
      [MessageContent.plainText ((summaryPromptPre ++ text.take 8000) ++
        ("  # Limit text to avoid token limits" ++
         "\n        \n        Summary:\n        "))] := by
  rw [summary_trace env text (guard_not_fired text h)]
  have hpost : summaryPromptPost =
      "  # Limit text to avoid token limits" ++
      "\n        \n        Summary:\n        " := by decide
  show [MessageContent.plainText
    (summaryPromptPre ++ text.take 8000 ++ summaryPromptPost)] = _
  rw [hpost]

/-- C9, witness: the leaked comment text follows the document text in the
concrete request for the 60-character text. -/
theorem c9_witness :
    50 ≤ (pyStrip longText).length
    ∧ (generate_summary_with_bedrock baseEnv longText).2.map
        (fun r => r.message) =
      [MessageContent.plainText ((summaryPromptPre ++ longText.take 8000) ++
        ("  # Limit text to avoid token limits" ++
         "\n        \n        Summary:\n        "))] :=
  ⟨by decide, c9_leaked_comment_in_prompt baseEnv longText (by decide)⟩

/-! ## Claim C10 -/

/-- C10: for every byte content (all values below 256), the Direct Decoder's
decode chain never reaches the final `errors='ignore'` branch — Latin-1
decoding succeeds for every byte sequence — so the chain returns a string via
the UTF-8 or Latin-1 branch and never raises for encoding reasons (in the
model `decodeBytes` is total). -/
theorem c10_latin1_unreachable_ignore (env : Env) (content : List Nat)
    (h : ∀ b ∈ content, b < 256) :
    (decodeBytes env content).2 ≠ DecodeBranch.utf8Ignore
    ∧ (latin1Decode content).isSome := by
  have hl : (latin1Decode content).isSome := by
    unfold latin1Decode
    have hsome := latin1DecodeChars_isSome content h
    cases hc : latin1DecodeChars content with
    | none => rw [hc] at hsome; exact absurd hsome (by simp)
    | some cs => simp
  refine ⟨?_, hl⟩
  unfold decodeBytes
  cases hu : env.utf8Decode content with
  | some t => simp
  | none =>
    cases hc : latin1Decode content with
    | none => rw [hc] at hl; exact absurd hl (by simp)
    | some t => simp [hc]

/-- C10, witness: the two-byte content `[255, 65]` fails the strict
ASCII/UTF-8 decode of the test environment and is decoded by the Latin-1
branch, not the ignore branch. -/
theorem c10_witness :
    (∀ b ∈ [255, 65], b < 256)
    ∧ ((decodeBytes baseEnv [255, 65]).2 ≠ DecodeBranch.utf8Ignore
       ∧ (latin1Decode [255, 65]).isSome) :=
  ⟨by decide, c10_latin1_unreachable_ignore baseEnv [255, 65] (by decide)⟩

end IdcOcr
